import Mathlib

/-!
Verification development for the monitoreoplus_dap repository.

The repository is a Python service (backend_dap.py, preprocesar_diarios.py)
that tracks official-gazette documents in a CSV-backed index
(do_index.csv), runs each raw document through text extraction and
summarization, and assembles bounded per-jurisdiction context strings for a
language model.  This file shallowly embeds the index data model, the
loader `cargar_diarios_por_fecha`, the ingestion loop `procesar_diarios`,
the context assembler `construir_contexto_diarios_por_jurisdiccion`, the
jurisdiction ordering of `generar_resumen_diarios`, the intent classifier
`detectar_intencion_pregunta` and the news loaders, and proves the stated
properties about them.

Python string operations (`str.strip`, `str.lower`, `in`, slicing) are
embedded as executable functions over `List Char`; CSV cells that pandas
may read as NaN are embedded as `Option String`, with `str(...)` of NaN
being the string "nan".  External effects (file reads/writes, PDF
extraction, the OpenAI calls) are embedded as explicit collaborator
functions; a raised exception is an `Except.error`.
-/

namespace MonitoreoDAP

/-! ## Python string primitives -/

/-- The ASCII whitespace characters `str.strip()` removes (the embedding
restricts Python's Unicode whitespace set to ASCII, which covers every
string the repository manipulates). -/
def esEspacio (c : Char) : Bool :=
  c = ' ' || c = '\t' || c = '\n' || c = '\r' || c = '\x0b' || c = '\x0c'

/-- `str.strip()` on a character list: drop leading and trailing whitespace. -/
def stripList (l : List Char) : List Char :=
  ((l.dropWhile esEspacio).reverse.dropWhile esEspacio).reverse

/-- Python `s.strip()`. -/
def pstrip (s : String) : String := ⟨stripList s.data⟩

/-- `str.lower()` on one character (ASCII range; the keyword tables and
status constants of the repository are ASCII). -/
def minusculaChar (c : Char) : Char :=
  if 'A' ≤ c && c ≤ 'Z' then Char.ofNat (c.toNat + 32) else c

/-- Python `s.lower()`. -/
def plower (s : String) : String := ⟨s.data.map minusculaChar⟩

/-- `str.upper()` on one character (ASCII range). -/
def mayusculaChar (c : Char) : Char :=
  if 'a' ≤ c && c ≤ 'z' then Char.ofNat (c.toNat - 32) else c

/-- Python `s.upper()`. -/
def pupper (s : String) : String := ⟨s.data.map mayusculaChar⟩

/-- Python falsiness of a string: `bool(s)` is `False` iff `s` is empty. -/
def esVacia (s : String) : Bool := s.data.isEmpty

/-- Is `sub` a leading block of `l`?  (Helper for the Python `in` operator.) -/
def comienzaCon : List Char → List Char → Bool
  | [], _ => true
  | _ :: _, [] => false
  | a :: as, b :: bs => a = b && comienzaCon as bs

/-- Substring containment on character lists. -/
def contieneList (sub : List Char) : List Char → Bool
  | [] => comienzaCon sub []
  | l@(_ :: resto) => comienzaCon sub l || contieneList sub resto

/-- Python `sub in s`. -/
def contiene (sub s : String) : Bool := contieneList sub.data s.data

/-- Python slicing `s[:n]` (by characters, as Python slices by code point). -/
def tomar (n : Nat) (s : String) : String := ⟨s.data.take n⟩

/-- `str(...)` applied to a CSV cell: a missing (NaN) cell stringifies as
"nan", a present cell is the string itself. -/
def pyStr : Option String → String
  | none => "nan"
  | some s => s

/-- `sep.join(textos)` for the textual separators the repository uses. -/
def unirCon (sep : String) : List String → String
  | [] => ""
  | [t] => t
  | t :: resto => t ++ sep ++ unirCon sep resto

/-! ## Dates -/

/-- A calendar date as pandas / `datetime.date` hold it. -/
structure Fecha where
  anio : Nat
  mes : Nat
  dia : Nat
deriving DecidableEq, Repr

/-- Split a character list on a separator character (`str.split(sep)`). -/
def separar (sep : Char) : List Char → List (List Char)
  | [] => [[]]
  | c :: resto =>
    let r := separar sep resto
    if c = sep then [] :: r
    else
      match r with
      | [] => [[c]]
      | h :: t => (c :: h) :: t

def esDigito (c : Char) : Bool := '0' ≤ c && c ≤ '9'

def valorDigitos (l : List Char) : Nat :=
  l.foldl (fun a c => a * 10 + (c.toNat - 48)) 0

/-- Parse a non-empty all-digit character list as a number; anything else is
no number. -/
def aNat (l : List Char) : Option Nat :=
  if !l.isEmpty && l.all esDigito then some (valorDigitos l) else none

/-- A month/day pair a parser accepts. -/
def fechaValida (mes dia : Nat) : Bool :=
  1 ≤ mes && mes ≤ 12 && 1 ≤ dia && dia ≤ 31

/-- Modelled from the library call `pd.to_datetime(col, errors="coerce",
dayfirst=b).dt.date` for the two textual date shapes the repository's CSV
columns hold: ISO "YYYY-MM-DD" and slashed "a/b/YYYY".  For the slashed
shape `dayfirst` states a preference between reading "a/b" as day/month or
month/day; a preferred reading with an impossible month falls back to the
other, as the library does.  Unparseable text coerces to `none` (NaT). -/
def to_datetime (dayfirst : Bool) (s : String) : Option Fecha :=
  let l := stripList s.data
  if l.contains '-' then
    match (separar '-' l).map aNat with
    | [some y, some m, some d] => if fechaValida m d then some ⟨y, m, d⟩ else none
    | _ => none
  else if l.contains '/' then
    match (separar '/' l).map aNat with
    | [some a, some b, some y] =>
      if dayfirst then
        if fechaValida b a then some ⟨y, b, a⟩
        else if fechaValida a b then some ⟨y, a, b⟩
        else none
      else
        if fechaValida a b then some ⟨y, a, b⟩
        else if fechaValida b a then some ⟨y, b, a⟩
        else none
    | _ => none
  else none

/-- Modelled from `datetime.strptime(fecha_str, "%Y-%m-%d").date()`: the
strict ISO query-date parse; a failure is the `ValueError` the callers
raise as "La fecha debe ir en formato YYYY-MM-DD". -/
def strptime_iso (s : String) : Option Fecha :=
  match (separar '-' s.data).map aNat with
  | [some y, some m, some d] => if fechaValida m d then some ⟨y, m, d⟩ else none
  | _ => none

/-! ## The document index (do_index.csv) -/

/-- One row of do_index.csv as pandas reads it: `text_path`, `summary_path`
and `status` may be missing (NaN), the remaining cells the code always
passes through `str(...)` are kept as the resulting strings. -/
structure Fila where
  id : String
  fecha : String
  jurisdiccion : String
  pdf_path : String
  text_path : Option String
  summary_path : Option String
  status : Option String
  created_at : String
deriving DecidableEq, Repr

/-- The backing CSV file: its header row and its data rows. -/
structure IndiceCSV where
  columnas : List String
  filas : List Fila
deriving DecidableEq, Repr

/-- backend_dap.py lines 277-286: the eight required columns. -/
def columnas_esperadas : List String :=
  ["id", "fecha", "jurisdiccion", "pdf_path",
   "text_path", "summary_path", "status", "created_at"]

/-- backend_dap.py lines 307-310 (`tiene_resumen`): a row is usable iff its
stripped `summary_path` is non-empty and its stripped, lowercased `status`
is "summary_ready" or the empty string. -/
def tiene_resumen (r : Fila) : Bool :=
  let status := plower (pstrip (pyStr r.status))
  let summary_path := pstrip (pyStr r.summary_path)
  !esVacia summary_path && (status == "summary_ready" || status == "")

/-- The errors `cargar_diarios_por_fecha` raises: `FileNotFoundError` for a
missing backing file, `ValueError` for a missing required column, and
`ValueError` for a malformed query date. -/
inductive ErrorCarga where
  | archivoNoEncontrado
  | columnaFaltante (col : String)
  | fechaInvalida
deriving DecidableEq, Repr

/-- backend_dap.py lines 265-315 (`cargar_diarios_por_fecha`): load the
index, check the schema, parse the stored dates (coercing malformed ones to
no-date), parse the query date strictly, and return the rows of that date
that are usable.  `archivo = none` is an absent backing file. -/
def cargar_diarios_por_fecha (archivo : Option IndiceCSV) (fecha_str : String) :
    Except ErrorCarga (List Fila) :=
  match archivo with
  | none => .error .archivoNoEncontrado
  | some idx =>
    match columnas_esperadas.find? (fun c => !idx.columnas.contains c) with
    | some c => .error (.columnaFaltante c)
    | none =>
      match strptime_iso fecha_str with
      | none => .error .fechaInvalida
      | some fecha_obj =>
        let df_dia := idx.filas.filter
          (fun r => decide (to_datetime false r.fecha = some fecha_obj))
        let df_dia := if df_dia.isEmpty then df_dia else df_dia.filter tiene_resumen
        .ok df_dia

/-! ## Basic lemmas about the string primitives -/

theorem stripList_eq_nil_iff (l : List Char) :
    stripList l = [] ↔ ∀ c ∈ l, esEspacio c = true := by
  unfold stripList
  rw [List.reverse_eq_nil_iff, List.dropWhile_eq_nil_iff]
  constructor
  · intro h c hc
    rw [← List.takeWhile_append_dropWhile (p := esEspacio) (l := l)] at hc
    rcases List.mem_append.mp hc with h' | h'
    · exact List.mem_takeWhile_imp h'
    · exact h c (List.mem_reverse.mpr h')
  · intro h c hc
    have hc' : c ∈ l.dropWhile esEspacio := List.mem_reverse.mp hc
    refine h c ?_
    rw [← List.takeWhile_append_dropWhile (p := esEspacio) (l := l)]
    exact List.mem_append_right _ hc'

theorem pstrip_ne_empty_of_sufijo (s t : String)
    (hc : ∃ c ∈ t.data, esEspacio c = false) : pstrip (s ++ t) ≠ "" := by
  intro h
  rcases hc with ⟨c, hct, hce⟩
  have hdata : stripList (s ++ t).data = [] := congrArg String.data h
  rw [stripList_eq_nil_iff] at hdata
  have hmem : c ∈ (s ++ t).data := by
    rw [String.data_append]
    exact List.mem_append_right _ hct
  rw [hdata c hmem] at hce
  exact Bool.noConfusion hce

theorem ne_empty_of_esVacia_eq_false (s : String) (h : esVacia s = false) :
    s ≠ "" := by
  intro he
  subst he
  simp [esVacia] at h

theorem filter_if_isEmpty {α : Type} (l : List α) (q : α → Bool) :
    (if l.isEmpty then l else l.filter q) = l.filter q := by
  cases l <;> simp

/-- When the backing file exists, the schema check passes and the query date
parses, `cargar_diarios_por_fecha` is the double filter over the stored rows. -/
theorem cargar_ok_spec (idx : IndiceCSV) (fecha_str : String) (D : Fecha)
    (hfind : columnas_esperadas.find? (fun c => !idx.columnas.contains c) = none)
    (hD : strptime_iso fecha_str = some D) :
    cargar_diarios_por_fecha (some idx) fecha_str =
      .ok (idx.filas.filter
        (fun r => tiene_resumen r && decide (to_datetime false r.fecha = some D))) := by
  unfold cargar_diarios_por_fecha
  dsimp only
  rw [hfind, hD]
  dsimp only
  rw [filter_if_isEmpty, List.filter_filter]

/-- When the schema check finds a missing column, the load raises. -/
theorem cargar_error_columna (idx : IndiceCSV) (fecha_str : String) (c : String)
    (hfind : columnas_esperadas.find? (fun c => !idx.columnas.contains c) = some c) :
    cargar_diarios_por_fecha (some idx) fecha_str = .error (.columnaFaltante c) := by
  unfold cargar_diarios_por_fecha
  dsimp only
  rw [hfind]

/-! ## Example index data used by the concrete instantiations -/

/-- A usable row: summary written, status summary_ready. -/
def filaLista : Fila :=
  ⟨"a.pdf", "2026-04-03", "DOF", "pdfs", some "do_textos/DOF/a.txt",
   some "do_resumenes/DOF/a_resumen.txt", some "summary_ready", "t0"⟩

/-- A raw row: no summary yet (NaN cells), status raw. -/
def filaCruda : Fila :=
  ⟨"b.pdf", "2026-04-03", "DOF", "pdfs", none, none, some "raw", "t0"⟩

def indiceEjemplo : IndiceCSV := ⟨columnas_esperadas, [filaLista, filaCruda]⟩

/-- A backing file whose header lacks most required columns. -/
def indiceRoto : IndiceCSV := ⟨["id", "fecha"], []⟩

/-- A summary-ready row whose stored date is malformed. -/
def filaMalFecha : Fila :=
  ⟨"c.pdf", "sin fecha", "DOF", "pdfs", none,
   some "do_resumenes/DOF/c_resumen.txt", some "summary_ready", "t0"⟩

def indiceMalFechas : IndiceCSV := ⟨columnas_esperadas, [filaMalFecha]⟩

/-- C1: for every index table and query date D, `cargar_diarios_por_fecha`
returns exactly the stored rows whose parsed date equals D and that are
usable, where usable (`tiene_resumen`) means the stripped `summary_path` is
non-empty and the stripped, lowercased `status` is "summary_ready" or the
empty string; in particular every returned row has a non-empty
`summary_path`, so no raw row with an empty summary path is returned. -/
theorem c1_cargar_diarios_por_fecha_filtra (idx : IndiceCSV) (fecha_str : String)
    (D : Fecha) (res : List Fila)
    (hok : cargar_diarios_por_fecha (some idx) fecha_str = .ok res)
    (hD : strptime_iso fecha_str = some D) :
    res = idx.filas.filter
        (fun r => tiene_resumen r && decide (to_datetime false r.fecha = some D)) ∧
    ∀ r ∈ res, to_datetime false r.fecha = some D ∧ tiene_resumen r = true ∧
      pstrip (pyStr r.summary_path) ≠ "" := by
  cases hfind : columnas_esperadas.find? (fun c => !idx.columnas.contains c) with
  | some c =>
      rw [cargar_error_columna idx fecha_str c hfind] at hok
      exact absurd hok (by simp)
  | none =>
      rw [cargar_ok_spec idx fecha_str D hfind hD] at hok
      have hres : res = idx.filas.filter
          (fun r => tiene_resumen r && decide (to_datetime false r.fecha = some D)) := by
        injection hok with h
        exact h.symm
      refine ⟨hres, ?_⟩
      intro r hr
      rw [hres, List.mem_filter, Bool.and_eq_true] at hr
      obtain ⟨-, htiene, hdec⟩ := hr
      refine ⟨of_decide_eq_true hdec, htiene, ?_⟩
      have hvac : esVacia (pstrip (pyStr r.summary_path)) = false := by
        simp only [tiene_resumen, Bool.and_eq_true, Bool.not_eq_true'] at htiene
        exact htiene.1
      exact ne_empty_of_esVacia_eq_false _ hvac

/-- Concrete instantiation of `c1_cargar_diarios_por_fecha_filtra`: the
example index holds one usable row and one raw row for 2026-04-03, and the
load returns exactly the usable one. -/
theorem c1_cargar_diarios_por_fecha_filtra_witness :
    cargar_diarios_por_fecha (some indiceEjemplo) "2026-04-03" = .ok [filaLista] ∧
    strptime_iso "2026-04-03" = some ⟨2026, 4, 3⟩ ∧
    ([filaLista] = indiceEjemplo.filas.filter
        (fun r => tiene_resumen r &&
          decide (to_datetime false r.fecha = some ⟨2026, 4, 3⟩)) ∧
     ∀ r ∈ [filaLista], to_datetime false r.fecha = some ⟨2026, 4, 3⟩ ∧
       tiene_resumen r = true ∧ pstrip (pyStr r.summary_path) ≠ "") :=
  ⟨rfl, by decide,
   c1_cargar_diarios_por_fecha_filtra indiceEjemplo "2026-04-03" ⟨2026, 4, 3⟩
     [filaLista] rfl (by decide)⟩

/-- C8: the load raises a not-found error when the backing CSV is absent,
raises a schema error when a required column is missing, and when the file
and schema are fine it returns (never raises), with every malformed-date
row excluded from the date-scoped result. -/
theorem c8_cargar_diarios_errores (idx : IndiceCSV) (fecha_str : String)
    (hD : ∃ D, strptime_iso fecha_str = some D) :
    (∀ fs, cargar_diarios_por_fecha none fs = .error .archivoNoEncontrado) ∧
    ((∃ c ∈ columnas_esperadas, idx.columnas.contains c = false) →
      ∃ c, cargar_diarios_por_fecha (some idx) fecha_str =
        .error (.columnaFaltante c)) ∧
    ((∀ c ∈ columnas_esperadas, idx.columnas.contains c = true) →
      ∃ res, cargar_diarios_por_fecha (some idx) fecha_str = .ok res ∧
        ∀ r ∈ idx.filas, to_datetime false r.fecha = none → r ∉ res) := by
  obtain ⟨D, hD⟩ := hD
  refine ⟨fun fs => rfl, ?_, ?_⟩
  · rintro ⟨c, hc, hcc⟩
    have hcc' : c ∉ idx.columnas := by simpa using hcc
    have hsome : (columnas_esperadas.find? (fun c => !idx.columnas.contains c)).isSome := by
      rw [List.find?_isSome]
      exact ⟨c, hc, by simp [hcc']⟩
    obtain ⟨c', hc'⟩ := Option.isSome_iff_exists.mp hsome
    exact ⟨c', cargar_error_columna idx fecha_str c' hc'⟩
  · intro hall
    have hfind : columnas_esperadas.find? (fun c => !idx.columnas.contains c) = none := by
      rw [List.find?_eq_none]
      intro a ha
      have : a ∈ idx.columnas := by simpa using hall a ha
      simp [this]
    refine ⟨_, cargar_ok_spec idx fecha_str D hfind hD, ?_⟩
    intro r hr hnone hmem
    rw [List.mem_filter, Bool.and_eq_true] at hmem
    have hdec := of_decide_eq_true hmem.2.2
    rw [hnone] at hdec
    exact Option.noConfusion hdec

/-- Concrete instantiation of `c8_cargar_diarios_errores`: a missing file, a
header lacking required columns, and a well-formed file whose only row has
a malformed date. -/
theorem c8_cargar_diarios_errores_witness :
    cargar_diarios_por_fecha none "2026-04-03" = .error .archivoNoEncontrado ∧
    (∃ c, cargar_diarios_por_fecha (some indiceRoto) "2026-04-03" =
      .error (.columnaFaltante c)) ∧
    ∃ res, cargar_diarios_por_fecha (some indiceMalFechas) "2026-04-03" = .ok res ∧
      ∀ r ∈ indiceMalFechas.filas, to_datetime false r.fecha = none → r ∉ res :=
  ⟨(c8_cargar_diarios_errores indiceRoto "2026-04-03"
      ⟨⟨2026, 4, 3⟩, by decide⟩).1 "2026-04-03",
   (c8_cargar_diarios_errores indiceRoto "2026-04-03"
      ⟨⟨2026, 4, 3⟩, by decide⟩).2.1 (by decide),
   (c8_cargar_diarios_errores indiceMalFechas "2026-04-03"
      ⟨⟨2026, 4, 3⟩, by decide⟩).2.2 (by decide)⟩

/-! ## The ingestion pipeline (preprocesar_diarios.py)

`procesar_diarios` iterates the index rows, skips the already-summarized
ones, and drives each remaining row through text extraction, text
persistence, summarization and summary persistence; every failing step is
caught per row.  The four collaborator steps (PyPDF2 extraction, the two
file writes, the OpenAI summarization) are embedded as deterministic
functions whose `Except.error` is a raised-and-caught exception. -/

def TEXT_BASE_DIR : String := "do_textos"

def SUMMARY_BASE_DIR : String := "do_resumenes"

/-- `os.path.splitext(doc_id)[0]`: the name without its extension (the ids
the index stores are PDF file names with an extension). -/
def splitext_base (s : String) : String :=
  if s.data.contains '.' then
    ⟨((s.data.reverse.dropWhile (fun c => !(c = '.'))).drop 1).reverse⟩
  else s

/-- The per-record collaborators of `procesar_diarios`.  `extraer_texto`
models `extraer_texto_pdf(ruta_pdf)`; `guardar_texto` and `guardar_resumen`
model the two guarded `open(..., "w").write(...)` blocks; `resumir` models
`resumir_texto_normativo(texto, jurisdiccion, fecha, doc_id)`.  A
deterministic function models one run's results, as the idempotence claim
fixes the extraction and summarization outcomes across runs. -/
structure Colaboradores where
  extraer_texto : String → Except String String
  guardar_texto : String → String → Except String Unit
  resumir : String → String → String → String → Except String String
  guardar_resumen : String → String → Except String Unit

/-- preprocesar_diarios.py line 168: `os.path.join(pdf_dir, doc_id)` (the
`normpath` pass is the identity on the separator-joined names used here). -/
def ruta_pdf (r : Fila) : String := r.pdf_path ++ "/" ++ r.id

/-- preprocesar_diarios.py lines 181-183: the text destination
`TEXT_BASE_DIR/jurisdiccion/base_name.txt`. -/
def archivo_texto (r : Fila) : String :=
  TEXT_BASE_DIR ++ "/" ++ r.jurisdiccion ++ "/" ++ splitext_base r.id ++ ".txt"

/-- preprocesar_diarios.py lines 200-201: the summary destination
`SUMMARY_BASE_DIR/jurisdiccion/base_name_resumen.txt`. -/
def archivo_resumen (r : Fila) : String :=
  SUMMARY_BASE_DIR ++ "/" ++ r.jurisdiccion ++ "/" ++ splitext_base r.id ++ "_resumen.txt"

/-- The second half of the idempotence guard: `isinstance(summary_path, str)
and summary_path.strip()` — a present, non-whitespace summary path. -/
def resumen_presente (r : Fila) : Bool :=
  match r.summary_path with
  | some s => !esVacia (pstrip s)
  | none => false

/-- `str(row.get("status", "")).strip().lower()`. -/
def estado_normalizado (r : Fila) : String := plower (pstrip (pyStr r.status))

/-- preprocesar_diarios.py lines 152-158: skip a row that is already
summary_ready with a present non-empty summary path. -/
def ya_procesado (r : Fila) : Bool :=
  estado_normalizado r == "summary_ready" && resumen_presente r

/-- preprocesar_diarios.py lines 210-213: the only index mutation — text
path, summary path and status are written together. -/
def marcar_procesado (r : Fila) : Fila :=
  { r with text_path := some (archivo_texto r),
           summary_path := some (archivo_resumen r),
           status := some "summary_ready" }

/-- preprocesar_diarios.py lines 151-217: one iteration of the row loop.
Every failing collaborator step (and a whitespace-only extraction) leaves
the row untouched and moves on. -/
def procesar_fila (c : Colaboradores) (r : Fila) : Fila :=
  match ya_procesado r with
  | true => r
  | false =>
    match c.extraer_texto (ruta_pdf r) with
    | .error _ => r
    | .ok texto =>
      match esVacia (pstrip texto) with
      | true => r
      | false =>
        match c.guardar_texto (archivo_texto r) texto with
        | .error _ => r
        | .ok _ =>
          match c.resumir texto r.jurisdiccion r.fecha r.id with
          | .error _ => r
          | .ok resumen =>
            match c.guardar_resumen (archivo_resumen r) resumen with
            | .error _ => r
            | .ok _ => marcar_procesado r

/-- The whole run over the in-memory index (the trailing `df.to_csv` batch
commit persists exactly this row list). -/
def procesar_diarios (c : Colaboradores) (filas : List Fila) : List Fila :=
  filas.map (procesar_fila c)

/-- Did some step of the record's processing fail?  (Extraction raised,
extraction yielded only whitespace, a file write raised, or summarization
raised.)  Mirrors the failure exits of `procesar_fila`. -/
def falla_procesamiento (c : Colaboradores) (r : Fila) : Bool :=
  match c.extraer_texto (ruta_pdf r) with
  | .error _ => true
  | .ok texto =>
    match esVacia (pstrip texto) with
    | true => true
    | false =>
      match c.guardar_texto (archivo_texto r) texto with
      | .error _ => true
      | .ok _ =>
        match c.resumir texto r.jurisdiccion r.fecha r.id with
        | .error _ => true
        | .ok resumen =>
          match c.guardar_resumen (archivo_resumen r) resumen with
          | .error _ => true
          | .ok _ => false

/-! ## Pipeline lemmas -/

/-- The constructed summary path never strips to nothing (it ends in
"_resumen.txt"). -/
theorem archivo_resumen_no_vacio (r : Fila) : pstrip (archivo_resumen r) ≠ "" := by
  unfold archivo_resumen
  exact pstrip_ne_empty_of_sufijo _ "_resumen.txt" ⟨'t', by decide, by decide⟩

/-- A non-empty string is not Python-falsy. -/
theorem esVacia_eq_false_of_ne (s : String) (h : s ≠ "") : esVacia s = false := by
  cases s with
  | mk data =>
    cases data with
    | nil => exact absurd rfl h
    | cons a l => rfl

/-- A freshly marked row passes the idempotence guard. -/
theorem ya_procesado_marcar (r : Fila) : ya_procesado (marcar_procesado r) = true := by
  have h2 : resumen_presente (marcar_procesado r) =
      !esVacia (pstrip (archivo_resumen r)) := rfl
  have h3 : esVacia (pstrip (archivo_resumen r)) = false :=
    esVacia_eq_false_of_ne _ (archivo_resumen_no_vacio r)
  unfold ya_procesado
  rw [h2, h3]
  exact rfl

/-- A processed row is either untouched or fully marked. -/
theorem procesar_fila_cases (c : Colaboradores) (r : Fila) :
    procesar_fila c r = r ∨
    (ya_procesado r = false ∧ falla_procesamiento c r = false ∧
      procesar_fila c r = marcar_procesado r) := by
  unfold procesar_fila falla_procesamiento
  cases hy : ya_procesado r with
  | true => exact Or.inl rfl
  | false =>
    dsimp only
    cases hx : c.extraer_texto (ruta_pdf r) with
    | error e => exact Or.inl rfl
    | ok texto =>
      dsimp only
      cases hv : esVacia (pstrip texto) with
      | true => exact Or.inl rfl
      | false =>
        dsimp only
        cases hg : c.guardar_texto (archivo_texto r) texto with
        | error e => exact Or.inl rfl
        | ok u =>
          dsimp only
          cases hs : c.resumir texto r.jurisdiccion r.fecha r.id with
          | error e => exact Or.inl rfl
          | ok resumen =>
            dsimp only
            cases hgr : c.guardar_resumen (archivo_resumen r) resumen with
            | error e => exact Or.inl rfl
            | ok u => exact Or.inr ⟨rfl, rfl, rfl⟩

/-- A failing record is left untouched. -/
theorem procesar_fila_falla (c : Colaboradores) (r : Fila)
    (hf : falla_procesamiento c r = true) : procesar_fila c r = r := by
  rcases procesar_fila_cases c r with h | ⟨-, hnf, -⟩
  · exact h
  · rw [hf] at hnf
    exact Bool.noConfusion hnf

/-- A row the guard skips is returned unchanged. -/
theorem procesar_fila_guardado (c : Colaboradores) (r : Fila)
    (hy : ya_procesado r = true) : procesar_fila c r = r := by
  unfold procesar_fila
  rw [hy]

/-- Processing a row twice with the same collaborators equals processing it
once. -/
theorem procesar_fila_idem (c : Colaboradores) (r : Fila) :
    procesar_fila c (procesar_fila c r) = procesar_fila c r := by
  rcases procesar_fila_cases c r with h | ⟨-, -, h⟩ <;> rw [h]
  · rw [h]
  · exact procesar_fila_guardado c _ (ya_procesado_marcar r)

/-- The marked row's normalized status. -/
theorem estado_marcar (r : Fila) :
    estado_normalizado (marcar_procesado r) = "summary_ready" := rfl

/-- The marked row carries a present, non-empty summary path. -/
theorem resumen_presente_marcar (r : Fila) :
    resumen_presente (marcar_procesado r) = true := by
  have h2 : resumen_presente (marcar_procesado r) =
      !esVacia (pstrip (archivo_resumen r)) := rfl
  rw [h2, esVacia_eq_false_of_ne _ (archivo_resumen_no_vacio r)]
  rfl

/-- C2: the ingestion pipeline is idempotent — with the same extraction and
summarization results, running `procesar_diarios` on its own output returns
that output unchanged: every row of the first run's result (in particular
every row that became summary_ready with a non-empty summary path) is a
fixed point of the per-row step, so the second run transitions nothing. -/
theorem c2_procesar_diarios_idempotente (c : Colaboradores) (filas : List Fila) :
    procesar_diarios c (procesar_diarios c filas) = procesar_diarios c filas ∧
    ∀ r ∈ procesar_diarios c filas, procesar_fila c r = r := by
  constructor
  · unfold procesar_diarios
    rw [List.map_map]
    have hfun : procesar_fila c ∘ procesar_fila c = procesar_fila c :=
      funext (procesar_fila_idem c)
    rw [hfun]
  · intro r hr
    obtain ⟨a, -, rfl⟩ := List.mem_map.mp hr
    exact procesar_fila_idem c a

/-- C3: a per-record failure (extraction raised or yielded only whitespace,
a file write raised, or summarization raised) leaves that record's row
exactly as it was, and every record of the batch is still processed
independently by the per-row step. -/
theorem c3_falla_por_registro_aislada (c : Colaboradores) (filas : List Fila)
    (i : Nat) (hi : i < filas.length)
    (hf : falla_procesamiento c filas[i] = true) :
    (procesar_diarios c filas)[i]? = some filas[i] ∧
    ∀ j : Nat, (procesar_diarios c filas)[j]? =
      (filas[j]?).map (procesar_fila c) := by
  have hmap : ∀ j : Nat, (procesar_diarios c filas)[j]? =
      (filas[j]?).map (procesar_fila c) := by
    intro j
    unfold procesar_diarios
    exact List.getElem?_map _ _ _
  refine ⟨?_, hmap⟩
  rw [hmap i, List.getElem?_eq_getElem hi]
  simp only [Option.map]
  rw [procesar_fila_falla c _ hf]

/-- Example collaborator results: extraction fails for the second document
and succeeds elsewhere, every other step succeeds. -/
def colaboradoresEjemplo : Colaboradores :=
  ⟨fun ruta => if ruta == "pdfs/b.pdf" then .error "PDF corrupto"
               else .ok "texto extraido",
   fun _ _ => .ok (),
   fun _ _ _ _ => .ok "- resumen normativo",
   fun _ _ => .ok ()⟩

def filaCruda1 : Fila := ⟨"a.pdf", "2026-04-03", "DOF", "pdfs", none, none, some "raw", "t0"⟩

def filaCruda2 : Fila := ⟨"b.pdf", "2026-04-03", "SONORA", "pdfs", none, none, some "raw", "t0"⟩

def filaCruda3 : Fila := ⟨"c.pdf", "2026-04-03", "VERACRUZ", "pdfs", none, none, some "raw", "t0"⟩

def filasEjemplo3 : List Fila := [filaCruda1, filaCruda2, filaCruda3]

/-- Concrete instantiation of `c3_falla_por_registro_aislada`: three raw
records, extraction fails for the second one; after one run records 1 and 3
are summary_ready and record 2 remains raw. -/
theorem c3_falla_por_registro_aislada_witness :
    falla_procesamiento colaboradoresEjemplo filaCruda2 = true ∧
    (procesar_diarios colaboradoresEjemplo filasEjemplo3)[1]? = some filaCruda2 ∧
    procesar_diarios colaboradoresEjemplo filasEjemplo3 =
      [marcar_procesado filaCruda1, filaCruda2, marcar_procesado filaCruda3] ∧
    estado_normalizado (marcar_procesado filaCruda1) = "summary_ready" ∧
    estado_normalizado filaCruda2 = "raw" ∧
    estado_normalizado (marcar_procesado filaCruda3) = "summary_ready" :=
  ⟨by decide,
   (c3_falla_por_registro_aislada colaboradoresEjemplo filasEjemplo3 1
      (by decide) (by decide)).1,
   by decide, by decide, by decide, by decide⟩

/-- C9: if every summary_ready row of the starting index has a non-empty
summary path and every row is in one of the two states of the data model,
then after a run of `procesar_diarios` the invariant still holds, no row is
deleted (the row list keeps its length, position by position), and the only
change a run ever makes to a row is the forward transition raw →
summary_ready, writing text path, summary path and status together. -/
theorem c9_invariante_indice (c : Colaboradores) (filas : List Fila)
    (hdom : ∀ r ∈ filas, estado_normalizado r = "raw" ∨
      estado_normalizado r = "summary_ready")
    (hinv : ∀ r ∈ filas, estado_normalizado r = "summary_ready" →
      resumen_presente r = true) :
    (procesar_diarios c filas).length = filas.length ∧
    (∀ r ∈ procesar_diarios c filas,
       estado_normalizado r = "summary_ready" → resumen_presente r = true) ∧
    ∀ i (hi : i < filas.length) (hi' : i < (procesar_diarios c filas).length),
      (procesar_diarios c filas).get ⟨i, hi'⟩ = filas.get ⟨i, hi⟩ ∨
      (estado_normalizado (filas.get ⟨i, hi⟩) = "raw" ∧
       (procesar_diarios c filas).get ⟨i, hi'⟩ =
         marcar_procesado (filas.get ⟨i, hi⟩)) := by
  refine ⟨List.length_map _ _, ?_, ?_⟩
  · intro r hr
    obtain ⟨a, ha, rfl⟩ := List.mem_map.mp hr
    rcases procesar_fila_cases c a with h | ⟨-, -, h⟩ <;> rw [h]
    · exact hinv a ha
    · intro _
      exact resumen_presente_marcar a
  · intro i hi hi'
    have hget : (procesar_diarios c filas).get ⟨i, hi'⟩ =
        procesar_fila c (filas.get ⟨i, hi⟩) := by
      unfold procesar_diarios
      rw [List.get_eq_getElem, List.get_eq_getElem, List.getElem_map]
    set a := filas.get ⟨i, hi⟩ with ha
    have hamem : a ∈ filas := List.get_mem filas i hi
    rcases procesar_fila_cases c a with h | ⟨hy, -, h⟩
    · exact Or.inl (by rw [hget, h])
    · refine Or.inr ⟨?_, by rw [hget, h]⟩
      rcases hdom a hamem with hraw | hsr
      · exact hraw
      · exfalso
        have hpres := hinv a hamem hsr
        have : ya_procesado a = true := by
          unfold ya_procesado
          rw [hpres, Bool.and_true, hsr]
          rfl
        rw [this] at hy
        exact Bool.noConfusion hy

/-- Concrete instantiation of `c9_invariante_indice` on the three-row raw
index with the failing-second-record collaborators. -/
theorem c9_invariante_indice_witness :
    (procesar_diarios colaboradoresEjemplo filasEjemplo3).length =
      filasEjemplo3.length ∧
    ∀ r ∈ procesar_diarios colaboradoresEjemplo filasEjemplo3,
      estado_normalizado r = "summary_ready" → resumen_presente r = true :=
  ⟨(c9_invariante_indice colaboradoresEjemplo filasEjemplo3
      (by decide) (by decide)).1,
   (c9_invariante_indice colaboradoresEjemplo filasEjemplo3
      (by decide) (by decide)).2.1⟩

/-! ## The context assembler (backend_dap.py lines 318-368)

`construir_contexto_diarios_por_jurisdiccion` groups a day's usable rows by
jurisdiction (pandas `groupby`: sorted distinct keys, rows of a group in
original order), reads each row's summary file, keeps the non-empty
stripped texts, joins them with a blank line and truncates the join to the
configured character budget.  The filesystem read of lines 341-357
(normpath, BASE_DIR join, existence check, `open(...).read()`) is embedded
as a collaborator returning `none` for a missing or unreadable file. -/

/-- The summary filesystem: `leer ruta` is the content read for the CSV's
(stripped) summary path, or `none` when the resolved file does not exist or
reading it raises. -/
structure Lector where
  leer : String → Option String

/-- What one row adds to its jurisdiction's text list: nothing when its
summary path is blank, its file is missing/unreadable, or the read content
strips to nothing; otherwise the stripped content (lines 336-357). -/
def contribucion (lect : Lector) (r : Fila) : Option String :=
  let ruta_rel := pstrip (pyStr r.summary_path)
  match esVacia ruta_rel with
  | true => none
  | false =>
    match lect.leer ruta_rel with
    | none => none
    | some contenido =>
      match esVacia (pstrip contenido) with
      | true => none
      | false => some (pstrip contenido)

/-- Insert into a sorted list of keys (helper for the sorted distinct keys
pandas `groupby` iterates). -/
def insertarClave (s : String) : List String → List String
  | [] => [s]
  | t :: resto => if s < t then s :: t :: resto else t :: insertarClave s resto

/-- Insertion sort of the group keys. -/
def ordenarClaves : List String → List String
  | [] => []
  | s :: resto => insertarClave s (ordenarClaves resto)

/-- The distinct jurisdiction keys in groupby iteration order. -/
def claves_grupo (filas : List Fila) : List String :=
  ordenarClaves ((filas.map (fun r => r.jurisdiccion)).dedup)

/-- The non-empty summary texts of jurisdiction `j`, in row order. -/
def textos_de (lect : Lector) (filas : List Fila) (j : String) : List String :=
  (filas.filter (fun r => r.jurisdiccion == j)).filterMap (contribucion lect)

/-- backend_dap.py lines 318-368: the per-jurisdiction context mapping.
`max_chars` is `int(os.getenv("DO_MAX_CHARS_RESUMENES", "24000"))`. -/
def construir_contexto_diarios_por_jurisdiccion (lect : Lector) (max_chars : Nat)
    (filas : List Fila) : List (String × String) :=
  (claves_grupo filas).filterMap (fun j =>
    let textos := textos_de lect filas j
    match textos.isEmpty with
    | true => none
    | false => some (j, tomar max_chars (unirCon "\n\n" textos)))

/-- The early returns of `generar_resumen_diarios` (backend_dap.py lines
387-403): an empty day and an empty context mapping each produce a normal
"no data" response value, not an exception; otherwise the jurisdiction
contexts flow on to the model calls. -/
inductive RespuestaResumen where
  | sin_datos (mensaje : String)
  | con_contexto (contexto : List (String × String))
deriving DecidableEq, Repr

def generar_resumen_diarios_temprano (lect : Lector) (max_chars : Nat)
    (filas : List Fila) : RespuestaResumen :=
  match filas.isEmpty with
  | true => .sin_datos "No hay diarios oficiales para esa fecha"
  | false =>
    let contexto := construir_contexto_diarios_por_jurisdiccion lect max_chars filas
    match contexto.isEmpty with
    | true => .sin_datos "No hay resúmenes normativos disponibles para esa fecha"
    | false => .con_contexto contexto

/-! ## Assembler lemmas -/

theorem insertarClave_perm (s : String) (l : List String) :
    List.Perm (insertarClave s l) (s :: l) := by
  induction l with
  | nil => exact List.Perm.refl _
  | cons t resto ih =>
    unfold insertarClave
    by_cases h : s < t
    · rw [if_pos h]
    · rw [if_neg h]
      exact ((ih.cons t).trans (List.Perm.swap s t resto))

theorem ordenarClaves_perm (l : List String) :
    List.Perm (ordenarClaves l) l := by
  induction l with
  | nil => exact List.Perm.refl _
  | cons s resto ih =>
    exact (insertarClave_perm s (ordenarClaves resto)).trans (ih.cons s)

theorem mem_claves_grupo (filas : List Fila) (j : String) :
    j ∈ claves_grupo filas ↔ j ∈ filas.map (fun r => r.jurisdiccion) := by
  unfold claves_grupo
  rw [(ordenarClaves_perm _).mem_iff, List.mem_dedup]

theorem nodup_claves_grupo (filas : List Fila) : (claves_grupo filas).Nodup :=
  (ordenarClaves_perm _).nodup_iff.mpr (List.nodup_dedup _)

/-- Looking a key up in a keyed `filterMap` over distinct keys. -/
theorem lookup_filterMap_claves (ks : List String)
    (g : String → Option (String × String))
    (hg : ∀ k p, g k = some p → p.1 = k) (hnd : ks.Nodup) (j : String) :
    List.lookup j (ks.filterMap g) =
      if j ∈ ks then (g j).map Prod.snd else none := by
  induction ks with
  | nil =>
    simp
  | cons k resto ih =>
    have hnd' : resto.Nodup := (List.nodup_cons.mp hnd).2
    have hknr : k ∉ resto := (List.nodup_cons.mp hnd).1
    by_cases hjk : j = k
    · subst hjk
      cases hgj : g j with
      | none =>
        rw [List.filterMap_cons, hgj, ih hnd']
        simp [hgj, hknr]
      | some p =>
        have hp1 : p.1 = j := hg j p hgj
        rw [List.filterMap_cons, hgj]
        have hlk : List.lookup j (p :: resto.filterMap g) = some p.2 := by
          have hb : (j == p.1) = true := by
            rw [hp1]
            exact beq_self_eq_true j
          simp [List.lookup, hb]
        rw [hlk]
        simp [hgj]
    · cases hgk : g k with
      | none =>
        rw [List.filterMap_cons, hgk, ih hnd']
        simp [hjk]
      | some p =>
        have hp1 : p.1 = k := hg k p hgk
        rw [List.filterMap_cons, hgk]
        have hlk : List.lookup j (p :: resto.filterMap g) =
            List.lookup j (resto.filterMap g) := by
          have hb : (j == p.1) = false := by
            rw [hp1]
            exact beq_false_of_ne hjk
          simp [List.lookup, hb]
        rw [hlk, ih hnd']
        simp [hjk]

/-- The assembled mapping, read pointwise: a jurisdiction maps to the
truncated join of its texts, and to nothing when no row of it contributes. -/
theorem lookup_construir (lect : Lector) (mc : Nat) (filas : List Fila)
    (j : String) :
    List.lookup j (construir_contexto_diarios_por_jurisdiccion lect mc filas) =
      match (textos_de lect filas j).isEmpty with
      | true => none
      | false => some (tomar mc (unirCon "\n\n" (textos_de lect filas j))) := by
  unfold construir_contexto_diarios_por_jurisdiccion
  rw [lookup_filterMap_claves _ _
    (fun k p hp => by
      revert hp
      dsimp only
      cases he : (textos_de lect filas k).isEmpty with
      | true => intro hp; exact Option.noConfusion hp
      | false =>
        intro hp
        injection hp with hp
        rw [← hp])
    (nodup_claves_grupo filas) j]
  by_cases hj : j ∈ claves_grupo filas
  · rw [if_pos hj]
    dsimp only
    cases he : (textos_de lect filas j).isEmpty <;> rfl
  · rw [if_neg hj]
    have hfil : filas.filter (fun r => r.jurisdiccion == j) = [] := by
      rw [List.filter_eq_nil_iff]
      intro r hr hb
      exact hj ((mem_claves_grupo filas j).mpr
        (List.mem_map.mpr ⟨r, hr, eq_of_beq hb⟩))
    have htex : textos_de lect filas j = [] := by
      unfold textos_de
      rw [hfil]
      rfl
    rw [htex]
    rfl

/-- `filterMap` ignores the rows it maps to nothing. -/
theorem filterMap_filter_isSome {α β : Type} (f : α → Option β) (l : List α) :
    (l.filter (fun a => (f a).isSome)).filterMap f = l.filterMap f := by
  induction l with
  | nil => rfl
  | cons a t ih =>
    cases hf : f a with
    | none => simp [List.filter_cons, List.filterMap_cons, hf, ih]
    | some b => simp [List.filter_cons, List.filterMap_cons, hf, ih]

/-- C5: each jurisdiction's assembled context is the blank-line join of its
non-empty summary texts in row order, truncated after concatenation to the
character budget: it is always a prefix of the full concatenation, and when
the full concatenation reaches the budget it is exactly budget-many
characters long. -/
theorem c5_contexto_concatena_y_trunca (lect : Lector) (max_chars : Nat)
    (filas : List Fila) (j ctx : String)
    (h : (j, ctx) ∈
      construir_contexto_diarios_por_jurisdiccion lect max_chars filas) :
    ctx = tomar max_chars (unirCon "\n\n" (textos_de lect filas j)) ∧
    (∃ resto, ctx ++ resto = unirCon "\n\n" (textos_de lect filas j)) ∧
    (max_chars ≤ (unirCon "\n\n" (textos_de lect filas j)).length →
      ctx.length = max_chars) := by
  obtain ⟨k, hk, hgk⟩ := List.mem_filterMap.mp h
  revert hgk
  dsimp only
  cases he : (textos_de lect filas k).isEmpty with
  | true => intro hgk; exact Option.noConfusion hgk
  | false =>
    intro hgk
    injection hgk with hgk
    have hk1 : k = j := congrArg Prod.fst hgk
    have hctx : ctx = tomar max_chars (unirCon "\n\n" (textos_de lect filas j)) := by
      have := congrArg Prod.snd hgk
      dsimp at this
      rw [← this, hk1]
    subst hk1
    refine ⟨hctx, ?_, ?_⟩
    · refine ⟨⟨(unirCon "\n\n" (textos_de lect filas k)).data.drop max_chars⟩, ?_⟩
      rw [hctx]
      apply String.ext
      rw [String.data_append]
      exact List.take_append_drop _ _
    · intro hle
      rw [hctx]
      show ((unirCon "\n\n" (textos_de lect filas k)).data.take max_chars).length = max_chars
      rw [List.length_take]
      exact Nat.min_eq_left hle

/-- The summary filesystem of the concrete assembler examples. -/
def lectorEjemplo : Lector :=
  ⟨fun ruta =>
    if ruta == "do_resumenes/DOF/a_resumen.txt" then some "abcde"
    else if ruta == "do_resumenes/DOF/b_resumen.txt" then some "fghij"
    else none⟩

/-- A second usable DOF row whose summary file also exists. -/
def filaListaB : Fila :=
  ⟨"b.pdf", "2026-04-03", "DOF", "pdfs", some "do_textos/DOF/b.txt",
   some "do_resumenes/DOF/b_resumen.txt", some "summary_ready", "t0"⟩

/-- Concrete instantiation of `c5_contexto_concatena_y_trunca`: two DOF
summaries of five characters each, a budget of six — the context is the
first six characters of "abcde\n\nfghij". -/
theorem c5_contexto_concatena_y_trunca_witness :
    ("DOF", "abcde\n") ∈ construir_contexto_diarios_por_jurisdiccion
      lectorEjemplo 6 [filaLista, filaListaB] ∧
    ("abcde\n" = tomar 6 (unirCon "\n\n"
        (textos_de lectorEjemplo [filaLista, filaListaB] "DOF")) ∧
     (∃ resto, "abcde\n" ++ resto = unirCon "\n\n"
        (textos_de lectorEjemplo [filaLista, filaListaB] "DOF")) ∧
     (6 ≤ (unirCon "\n\n"
        (textos_de lectorEjemplo [filaLista, filaListaB] "DOF")).length →
      ("abcde\n" : String).length = 6)) :=
  ⟨by decide,
   c5_contexto_concatena_y_trunca lectorEjemplo 6 [filaLista, filaListaB]
     "DOF" "abcde\n" (by decide)⟩

/-- C7: the assembler never fails on a missing or unreadable summary file —
the mapping it builds is pointwise the one built from the contributing rows
alone, it is empty when no row contributes, and the caller of an empty
mapping returns a normal "no data" response value. -/
theorem c7_contexto_robusto (lect : Lector) (max_chars : Nat)
    (filas : List Fila) :
    (∀ j, List.lookup j
        (construir_contexto_diarios_por_jurisdiccion lect max_chars filas) =
      List.lookup j (construir_contexto_diarios_por_jurisdiccion lect max_chars
        (filas.filter (fun r => (contribucion lect r).isSome)))) ∧
    ((∀ r ∈ filas, contribucion lect r = none) →
      construir_contexto_diarios_por_jurisdiccion lect max_chars filas = []) ∧
    (filas ≠ [] →
      construir_contexto_diarios_por_jurisdiccion lect max_chars filas = [] →
      generar_resumen_diarios_temprano lect max_chars filas =
        .sin_datos "No hay resúmenes normativos disponibles para esa fecha") := by
  refine ⟨?_, ?_, ?_⟩
  · intro j
    have htex : textos_de lect
        (filas.filter (fun r => (contribucion lect r).isSome)) j =
        textos_de lect filas j := by
      unfold textos_de
      rw [List.filter_comm, filterMap_filter_isSome]
    rw [lookup_construir, lookup_construir, htex]
  · intro hall
    unfold construir_contexto_diarios_por_jurisdiccion
    rw [List.filterMap_eq_nil_iff]
    intro j hj
    have htex : textos_de lect filas j = [] := by
      unfold textos_de
      rw [List.filterMap_eq_nil_iff]
      intro r hr
      exact hall r (List.mem_of_mem_filter hr)
    dsimp only
    rw [htex]
    rfl
  · intro hne hctx
    cases filas with
    | nil => exact absurd rfl hne
    | cons a t =>
      unfold generar_resumen_diarios_temprano
      dsimp only
      rw [hctx]
      rfl

/-- A filesystem on which every read fails. -/
def lectorVacio : Lector := ⟨fun _ => none⟩

/-- Concrete instantiation of `c7_contexto_robusto`: three rows whose
summary files are all unreadable produce the empty mapping and the "no
data" response. -/
theorem c7_contexto_robusto_witness :
    construir_contexto_diarios_por_jurisdiccion lectorVacio 24000 filasEjemplo3 = [] ∧
    generar_resumen_diarios_temprano lectorVacio 24000 filasEjemplo3 =
      .sin_datos "No hay resúmenes normativos disponibles para esa fecha" :=
  ⟨(c7_contexto_robusto lectorVacio 24000 filasEjemplo3).2.1 (by decide),
   (c7_contexto_robusto lectorVacio 24000 filasEjemplo3).2.2 (by decide)
     ((c7_contexto_robusto lectorVacio 24000 filasEjemplo3).2.1 (by decide))⟩

/-! ## Jurisdiction ordering (backend_dap.py lines 465-479)

The consolidated path of `generar_resumen_diarios` first walks the fixed
preferred list, emitting the jurisdictions that are keys of the context
mapping, then walks the mapping's keys, emitting (uppercased) the ones not
yet emitted.  The `ya_agregadas` set always holds exactly the entries
emitted so far, so membership in it is embedded as membership in the
output list being built. -/

def ORDEN_JURISDICCIONES : List String := ["DOF", "SONORA", "VERACRUZ", "CDMX"]

/-- Lines 470-473: the preferred-order pass. -/
def pasada_preferidas (disponibles : List String) :
    List String → List String → List String
  | [], lista => lista
  | j :: resto, lista =>
    if disponibles.contains j && !lista.contains j
    then pasada_preferidas disponibles resto (lista ++ [j])
    else pasada_preferidas disponibles resto lista

/-- Lines 475-479: the leftover pass over the mapping's keys, uppercased. -/
def pasada_extras : List String → List String → List String
  | [], lista => lista
  | j :: resto, lista =>
    let j_up := pupper j
    if !lista.contains j_up
    then pasada_extras resto (lista ++ [j_up])
    else pasada_extras resto lista

/-- Lines 465-479: the jurisdiction processing order for a given list of
available context keys. -/
def ordenar_jurisdicciones (disponibles : List String) : List String :=
  pasada_extras disponibles (pasada_preferidas disponibles ORDEN_JURISDICCIONES [])

theorem contains_true {l : List String} {a : String} :
    l.contains a = true ↔ a ∈ l := by
  simp

theorem contains_false {l : List String} {a : String} :
    l.contains a = false ↔ a ∉ l := by
  simp

theorem pasada_preferidas_spec (disponibles : List String) (orden lista : List String)
    (hnd : orden.Nodup) (hout : ∀ j ∈ orden, lista.contains j = false) :
    pasada_preferidas disponibles orden lista =
      lista ++ orden.filter (fun j => disponibles.contains j) := by
  induction orden generalizing lista with
  | nil => simp [pasada_preferidas]
  | cons j resto ih =>
    have hnd' : resto.Nodup := (List.nodup_cons.mp hnd).2
    have hjr : j ∉ resto := (List.nodup_cons.mp hnd).1
    unfold pasada_preferidas
    rw [hout j (List.mem_cons_self j resto), Bool.not_false, Bool.and_true]
    cases hd : disponibles.contains j with
    | true =>
      rw [if_pos rfl, ih _ hnd' ?_]
      · rw [List.filter_cons_of_pos (by rw [hd])]
        simp
      · intro k hk
        rw [contains_false, List.mem_append]
        rintro (hkl | hkj)
        · exact contains_false.mp (hout k (List.mem_cons_of_mem j hk)) hkl
        · rw [List.mem_singleton] at hkj
          exact hjr (hkj ▸ hk)
    | false =>
      rw [if_neg (by simp), ih _ hnd' (fun k hk => hout k (List.mem_cons_of_mem j hk)),
        List.filter_cons_of_neg (by rw [hd]; exact Bool.noConfusion)]

theorem pasada_extras_spec (resto lista : List String)
    (hnd : resto.Nodup) (hup : ∀ j ∈ resto, pupper j = j)
    (hmem : ∀ j ∈ resto, lista.contains j = ORDEN_JURISDICCIONES.contains j)
    (hdentro : ∀ j ∈ resto, ORDEN_JURISDICCIONES.contains j = true →
      lista.contains j = true) :
    pasada_extras resto lista =
      lista ++ resto.filter (fun j => !ORDEN_JURISDICCIONES.contains j) := by
  induction resto generalizing lista with
  | nil => simp [pasada_extras]
  | cons j resto ih =>
    have hnd' : resto.Nodup := (List.nodup_cons.mp hnd).2
    have hjr : j ∉ resto := (List.nodup_cons.mp hnd).1
    unfold pasada_extras
    dsimp only
    rw [hup j (List.mem_cons_self j resto)]
    cases ho : ORDEN_JURISDICCIONES.contains j with
    | true =>
      have hl : lista.contains j = true := by
        rw [hmem j (List.mem_cons_self j resto), ho]
      rw [hl]
      rw [if_neg (show ¬((!true) = true) from by decide),
        ih lista hnd' (fun k hk => hup k (List.mem_cons_of_mem j hk))
          (fun k hk => hmem k (List.mem_cons_of_mem j hk))
          (fun k hk => hdentro k (List.mem_cons_of_mem j hk)),
        List.filter_cons_of_neg (by rw [ho]; exact Bool.noConfusion)]
    | false =>
      have hl : lista.contains j = false := by
        rw [hmem j (List.mem_cons_self j resto), ho]
      rw [hl]
      rw [if_pos (show (!false) = true from rfl),
        ih (lista ++ [j]) hnd' (fun k hk => hup k (List.mem_cons_of_mem j hk)) ?_ ?_,
        List.filter_cons_of_pos (by rw [ho]; rfl)]
      · simp
      · intro k hk
        have hkj : k ≠ j := fun he => hjr (he ▸ hk)
        cases hoc : ORDEN_JURISDICCIONES.contains k with
        | true =>
          rw [contains_true, List.mem_append]
          exact Or.inl (contains_true.mp
            ((hmem k (List.mem_cons_of_mem j hk)).trans hoc))
        | false =>
          rw [contains_false, List.mem_append]
          rintro (hkl | hkj')
          · have := (hmem k (List.mem_cons_of_mem j hk)).symm.trans
              (contains_true.mpr hkl)
            rw [hoc] at this
            exact Bool.noConfusion this
          · rw [List.mem_singleton] at hkj'
            exact hkj hkj'
      · intro k hk hok
        rw [contains_true, List.mem_append]
        exact Or.inl (contains_true.mp (hdentro k (List.mem_cons_of_mem j hk) hok))

/-- C4: for available jurisdictions that are distinct and uppercase (the
mapping's keys), the consolidated-summary path processes the preferred
jurisdictions present, in the fixed order [DOF, SONORA, VERACRUZ, CDMX],
then the remaining available jurisdictions not in the preferred list; the
resulting order has no repeats and contains each available jurisdiction
exactly once. -/
theorem c4_ordenar_jurisdicciones (disponibles : List String)
    (hnd : disponibles.Nodup) (hup : ∀ j ∈ disponibles, pupper j = j) :
    ordenar_jurisdicciones disponibles =
      ORDEN_JURISDICCIONES.filter (fun j => disponibles.contains j) ++
      disponibles.filter (fun j => !ORDEN_JURISDICCIONES.contains j) ∧
    (ordenar_jurisdicciones disponibles).Nodup ∧
    ∀ j, j ∈ ordenar_jurisdicciones disponibles ↔ j ∈ disponibles := by
  have hORDENnd : ORDEN_JURISDICCIONES.Nodup := by decide
  have h1 : pasada_preferidas disponibles ORDEN_JURISDICCIONES [] =
      ORDEN_JURISDICCIONES.filter (fun j => disponibles.contains j) := by
    rw [pasada_preferidas_spec disponibles ORDEN_JURISDICCIONES [] hORDENnd
      (fun j _ => rfl), List.nil_append]
  have heq : ordenar_jurisdicciones disponibles =
      ORDEN_JURISDICCIONES.filter (fun j => disponibles.contains j) ++
      disponibles.filter (fun j => !ORDEN_JURISDICCIONES.contains j) := by
    unfold ordenar_jurisdicciones
    rw [h1, pasada_extras_spec disponibles _ hnd hup ?_ ?_]
    · intro k hk
      cases ho : ORDEN_JURISDICCIONES.contains k with
      | true =>
        rw [contains_true]
        exact List.mem_filter.mpr ⟨contains_true.mp ho, contains_true.mpr hk⟩
      | false =>
        rw [contains_false]
        intro hmem
        exact contains_false.mp ho (List.mem_filter.mp hmem).1
    · intro k hk hok
      rw [contains_true]
      exact List.mem_filter.mpr ⟨contains_true.mp hok, contains_true.mpr hk⟩
  refine ⟨heq, ?_, ?_⟩
  · rw [heq]
    refine List.Nodup.append (hORDENnd.filter _) (hnd.filter _) ?_
    intro j hj1 hj2
    have h1m : j ∈ ORDEN_JURISDICCIONES := (List.mem_filter.mp hj1).1
    have h2m := (List.mem_filter.mp hj2).2
    rw [Bool.not_eq_true'] at h2m
    exact contains_false.mp h2m h1m
  · intro j
    rw [heq, List.mem_append, List.mem_filter, List.mem_filter]
    constructor
    · rintro (⟨-, h⟩ | ⟨h, -⟩)
      · exact contains_true.mp h
      · exact h
    · intro hj
      by_cases ho : j ∈ ORDEN_JURISDICCIONES
      · exact Or.inl ⟨ho, contains_true.mpr hj⟩
      · exact Or.inr ⟨hj, by rw [Bool.not_eq_true']; exact contains_false.mpr ho⟩

/-- Concrete instantiation of `c4_ordenar_jurisdicciones`: available keys
{CDMX, DOF, VERACRUZ} (the sorted key order pandas iterates) are processed
as [DOF, VERACRUZ, CDMX]. -/
theorem c4_ordenar_jurisdicciones_witness :
    ordenar_jurisdicciones ["CDMX", "DOF", "VERACRUZ"] = ["DOF", "VERACRUZ", "CDMX"] ∧
    (ordenar_jurisdicciones ["CDMX", "DOF", "VERACRUZ"] =
      ORDEN_JURISDICCIONES.filter (fun j => List.contains ["CDMX", "DOF", "VERACRUZ"] j) ++
      List.filter (fun j => !ORDEN_JURISDICCIONES.contains j) ["CDMX", "DOF", "VERACRUZ"] ∧
     (ordenar_jurisdicciones ["CDMX", "DOF", "VERACRUZ"]).Nodup ∧
     ∀ j, j ∈ ordenar_jurisdicciones ["CDMX", "DOF", "VERACRUZ"] ↔
       j ∈ ["CDMX", "DOF", "VERACRUZ"]) :=
  ⟨by decide,
   c4_ordenar_jurisdicciones ["CDMX", "DOF", "VERACRUZ"] (by decide) (by decide)⟩

/-! ## Intent classification (backend_dap.py lines 532-590) -/

/-- Lines 555-563: the regulatory keywords, in table order. -/
def palabras_normativo : List String :=
  ["dof", "diario oficial", "gaceta", "congreso", "parlamentaria", "ley", "reforma"]

/-- Lines 544-552: the jurisdiction keyword chain; first match wins. -/
def detectar_jurisdiccion (p : String) : Option String :=
  if contiene "dof" p || contiene "diario oficial de la federación" p then some "DOF"
  else if contiene "sonora" p then some "SONORA"
  else if contiene "veracruz" p then some "VERACRUZ"
  else if contiene "cdmx" p || contiene "ciudad de méxico" p then some "CDMX"
  else none

/-- Lines 567-577: the topic → keywords table, in iteration order. -/
def patrones_temas : List (String × List String) :=
  [("industria_alimentaria", ["industria alimentaria", "alimentos", "alimentaria"]),
   ("cemento", ["cemento"]),
   ("gas", ["gas"]),
   ("impuesto", ["impuesto", "impuestos", "tributario", "fiscal"]),
   ("casinos", ["casino", "casinos", "juegos de azar"]),
   ("movilidad", ["movilidad", "transporte público", "tráfico", "transito", "tránsito"]),
   ("seguridad", ["seguridad", "violencia", "delincuencia"]),
   ("agenda nacional", ["agenda nacional", "noticias nacionales"])]

/-- Lines 579-582: first topic whose patterns match, table order. -/
def detectar_termino (p : String) : Option String :=
  (patrones_temas.find? (fun par => par.2.any (fun pat => contiene pat p))).map
    (fun par => par.1)

structure Intencion where
  tipo : String
  jurisdiccion : Option String
  termino : Option String
deriving DecidableEq, Repr

/-- backend_dap.py lines 532-590 (`detectar_intencion_pregunta`). -/
def detectar_intencion_pregunta (pregunta : String) : Intencion :=
  let p := plower pregunta
  let jurisdiccion := detectar_jurisdiccion p
  let es_normativo :=
    palabras_normativo.any (fun w => contiene w p) || jurisdiccion.isSome
  let termino := detectar_termino p
  { tipo := if es_normativo then "normativo" else "noticias",
    jurisdiccion := jurisdiccion,
    termino := termino }

/-- C6: the classifier returns scope "normativo" iff some regulatory keyword
occurs (case-insensitively) in the question or a jurisdiction keyword
matched, and returns "noticias" otherwise; jurisdiction and topic are the
first matches of their fixed tables.  In particular "gaceta de Veracruz"
classifies as regulatory/VERACRUZ and "impuestos" as news/impuesto. -/
theorem c6_detectar_intencion_pregunta (pregunta : String) :
    ((detectar_intencion_pregunta pregunta).tipo = "normativo" ↔
      (palabras_normativo.any (fun w => contiene w (plower pregunta)) = true ∨
       (detectar_intencion_pregunta pregunta).jurisdiccion ≠ none)) ∧
    ((detectar_intencion_pregunta pregunta).tipo = "normativo" ∨
     (detectar_intencion_pregunta pregunta).tipo = "noticias") ∧
    (detectar_intencion_pregunta pregunta).jurisdiccion =
      detectar_jurisdiccion (plower pregunta) ∧
    (detectar_intencion_pregunta pregunta).termino =
      detectar_termino (plower pregunta) ∧
    detectar_intencion_pregunta "gaceta de Veracruz" =
      ⟨"normativo", some "VERACRUZ", none⟩ ∧
    detectar_intencion_pregunta "impuestos" = ⟨"noticias", none, some "impuesto"⟩ := by
  have htipo : (detectar_intencion_pregunta pregunta).tipo =
      (if (palabras_normativo.any (fun w => contiene w (plower pregunta)) ||
           (detectar_jurisdiccion (plower pregunta)).isSome)
       then "normativo" else "noticias") := rfl
  have hjur : (detectar_intencion_pregunta pregunta).jurisdiccion =
      detectar_jurisdiccion (plower pregunta) := rfl
  refine ⟨?_, ?_, hjur, rfl, by decide, by decide⟩
  · rw [htipo, hjur]
    cases hb : (palabras_normativo.any (fun w => contiene w (plower pregunta)) ||
        (detectar_jurisdiccion (plower pregunta)).isSome) with
    | true =>
      rw [if_pos rfl]
      constructor
      · intro _
        rcases (Bool.or_eq_true _ _).mp hb with h | h
        · exact Or.inl h
        · exact Or.inr (Option.isSome_iff_ne_none.mp h)
      · intro _
        rfl
    | false =>
      rw [if_neg (show ¬(false = true) from by decide)]
      have hab := Bool.or_eq_false_iff.mp hb
      constructor
      · intro h
        exact absurd h (by decide)
      · rintro (h | h)
        · rw [hab.1] at h
          exact Bool.noConfusion h
        · cases ho : detectar_jurisdiccion (plower pregunta) with
          | none => exact absurd ho h
          | some v =>
            have h2 := hab.2
            rw [ho] at h2
            exact Bool.noConfusion h2
  · rw [htipo]
    cases hb : (palabras_normativo.any (fun w => contiene w (plower pregunta)) ||
        (detectar_jurisdiccion (plower pregunta)).isSome) with
    | true => exact Or.inl (by rw [if_pos rfl])
    | false => exact Or.inr (by rw [if_neg (show ¬(false = true) from by decide)])

/-! ## The news CSV and its two date parses (backend_dap.py lines 50-79 and
744-784)

The `/fechas_noticias` endpoint parses the stored `fecha` column with
`dayfirst=True` and lists the distinct parsed dates in descending order as
"YYYY-MM-DD" strings; `cargar_noticias_dap_por_fecha` parses the same
column with `dayfirst=False` and filters on equality with the query date. -/

structure NoticiaFila where
  fecha : String
  titular : String
  termino : String
  enlace : String
  medio : String
deriving DecidableEq, Repr

structure NoticiasCSV where
  columnas : List String
  filas : List NoticiaFila
deriving DecidableEq, Repr

/-- backend_dap.py line 60: the five required news columns. -/
def columnas_noticias : List String := ["fecha", "titular", "termino", "enlace", "medio"]

/-- backend_dap.py lines 50-79 (`cargar_noticias_dap_por_fecha`): dayfirst
is False. -/
def cargar_noticias_dap_por_fecha (archivo : Option NoticiasCSV)
    (fecha_str : String) : Except ErrorCarga (List NoticiaFila) :=
  match archivo with
  | none => .error .archivoNoEncontrado
  | some csv =>
    match columnas_noticias.find? (fun c => !csv.columnas.contains c) with
    | some c => .error (.columnaFaltante c)
    | none =>
      match strptime_iso fecha_str with
      | none => .error .fechaInvalida
      | some fecha_obj =>
        .ok (csv.filas.filter
          (fun r => decide (to_datetime false r.fecha = some fecha_obj)))

/-- Decimal digits, most significant first (fuel-based so it computes). -/
def digitosFuel : Nat → Nat → List Char
  | 0, _ => []
  | fuel + 1, n =>
    if n < 10 then [Char.ofNat (48 + n)]
    else digitosFuel fuel (n / 10) ++ [Char.ofNat (48 + n % 10)]

def digitos (n : Nat) : List Char := digitosFuel (n + 1) n

/-- Two-digit zero padding, as `strftime("%m"/"%d")` renders. -/
def pad2 (n : Nat) : List Char := if n < 10 then '0' :: digitos n else digitos n

/-- `fecha.strftime("%Y-%m-%d")`. -/
def formatear_fecha (f : Fecha) : String :=
  ⟨digitos f.anio ++ ('-' :: (pad2 f.mes ++ ('-' :: pad2 f.dia)))⟩

def clave_fecha (f : Fecha) : Nat := f.anio * 10000 + f.mes * 100 + f.dia

def insertar_fecha_desc (f : Fecha) : List Fecha → List Fecha
  | [] => [f]
  | g :: resto =>
    if clave_fecha g < clave_fecha f then f :: g :: resto
    else g :: insertar_fecha_desc f resto

/-- `sorted(fechas_unicas, reverse=True)`. -/
def ordenar_fechas_desc : List Fecha → List Fecha
  | [] => []
  | f :: resto => insertar_fecha_desc f (ordenar_fechas_desc resto)

/-- backend_dap.py lines 744-784 (`fechas_noticias` endpoint body, given the
CSV rows): parse with dayfirst=True, drop the unparseable, list the
distinct dates descending, formatted "YYYY-MM-DD". -/
def fechas_noticias (filas : List NoticiaFila) : List String :=
  let parsed := filas.filterMap (fun r => to_datetime true r.fecha)
  (ordenar_fechas_desc parsed.dedup).map formatear_fecha

/-- C10: the news date-listing endpoint parses the stored dates with
dayfirst=True while the news loader parses them with dayfirst=False, so for
a CSV holding the ambiguous date "03/04/2026" the endpoint lists
"2026-04-03" as available, yet loading that very date returns zero rows
(the loader reads the cell as 2026-03-04). -/
theorem c10_dayfirst_discrepancia :
    to_datetime true "03/04/2026" = some ⟨2026, 4, 3⟩ ∧
    to_datetime false "03/04/2026" = some ⟨2026, 3, 4⟩ ∧
    fechas_noticias [⟨"03/04/2026", "titular", "impuesto", "enlace", "medio"⟩] =
      ["2026-04-03"] ∧
    cargar_noticias_dap_por_fecha
      (some ⟨columnas_noticias,
        [⟨"03/04/2026", "titular", "impuesto", "enlace", "medio"⟩]⟩)
      "2026-04-03" = .ok [] :=
  ⟨by decide, by decide, by decide, rfl⟩

end MonitoreoDAP
